import Mathlib

/-!
# Request-logging middleware (`middleware/logger.go`)

A shallow embedding of `Logger`, the decorator that times a wrapped handler and
writes one line per request to the standard logger, and the properties of it that
the specification states.

The handler, the clock and the log sink are effects.  They are modelled by explicit
state passing: a `World` holds the contexts handlers point at, the lines handed to
the log sink so far, and the number of clock readings taken so far.  A handler is a
function from a context pointer and a world to an `Outcome`: it returns, it panics,
or it never comes back.  Pointers may be nil: `Logger` reads through `c`,
`c.Request`, `c.Request.URL` and `c.Response` without a check, and panics on a nil
one as the Go run time does.
-/

namespace middleware

/-! ## Time -/

/-- An instant, in nanoseconds on the time line of the clock. -/
abbrev Time := Int

/-- A span of time, in nanoseconds (`time.Duration`). -/
abbrev Duration := Int

/-- Modelled from the spec: `Time.Sub` belongs to Go's standard library, not to this
repository; step 3 of the operation reads "compute elapsed = end − start". -/
def Time.Sub (t u : Time) : Duration := t - u

/-! ## The request context -/

/-- The one field of `url.URL` that `Logger` reads. -/
structure URL where
  Path : String
deriving DecidableEq, Repr

/-- Modelled from the spec: the request half of the context, which "exposes: request
method (string), request path (string)".  The field `URL` is a pointer, as in
`http.Request`; `none` is the nil pointer. -/
structure Request where
  Method : String
  URL : Option URL
deriving DecidableEq, Repr

/-- Modelled from the spec: the response half of the context, a "response status
(integer, readable after invocation)" together with the headers and the body written
so far. -/
structure Response where
  status : Int
  header : List (String × String)
  body : String
deriving DecidableEq, Repr

/-- Reading of the status, `c.Response.Status()`. -/
def Response.Status (r : Response) : Int := r.status

/-- Modelled from the spec: `bolt.Context`, declared in the root package of the
repository and not under `src/`.  Both fields are pointers, which a handler may
leave nil; `none` is the nil pointer. -/
structure Context where
  Request : Option Request
  Response : Option Response
deriving DecidableEq, Repr

/-- A `*bolt.Context`: the address of a context in the world, or `none` for the nil
pointer. -/
abbrev Ptr := Option Nat

/-! ## Effects -/

/-- Everything a handler can act on: the contexts, the lines handed to the log sink
(oldest first) and the number of readings taken from the clock. -/
structure World where
  ctx : Nat → Context
  sink : List String
  ticks : Nat

/-- The value a panic carries. -/
structure Failure where
  value : String
deriving DecidableEq, Repr

/-- The run-time panic of Go on reading through a nil pointer. -/
def runtime.nilDereference : Failure :=
  { value := "runtime error: invalid memory address or nil pointer dereference" }

/-- How a call of a handler ends: it returns and leaves a world, it panics with a
failure and leaves the world as it stood at the panic, or it never returns. -/
inductive Outcome where
  | returned (w : World)
  | panicked (e : Failure) (w : World)
  | diverged

/-- Lines in the log sink when the call is over, if it is ever over. -/
def Outcome.sink : Outcome → Option (List String)
  | .returned w => some w.sink
  | .panicked _ w => some w.sink
  | .diverged => none

/-- Contexts as the call leaves them, if it is ever over. -/
def Outcome.ctx : Outcome → Option (Nat → Context)
  | .returned w => some w.ctx
  | .panicked _ w => some w.ctx
  | .diverged => none

/-- The type `bolt.HandlerFunc`, a `func(*Context)`. -/
abbrev HandlerFunc := Ptr → World → Outcome

/-- The functions of package `color` that `Logger` refers to. -/
inductive color where
  | Green
  | Red
  | Yellow
  | Cyan
deriving DecidableEq, Repr

/-- What `Logger` takes from outside the repository: the clock behind `time.Now`
(`clock k` is the reading number `k`), the rendering of a status by a function of
package `color`, and the `String` method of `time.Duration`. -/
structure Host where
  clock : Nat → Time
  paint : color → Int → String
  DurationString : Duration → String

/-- One reading of the clock, `time.Now()`. -/
def time.Now (H : Host) (w : World) : Time × World :=
  (H.clock w.ticks, { w with ticks := w.ticks + 1 })

/-- Expansion of a format over string operands, for the formats built from literal
text and the verb `%s`, the only verb `Logger` uses: each `%s` takes the next
operand, a `%s` with no operand left is reported in place, operands left over are
reported at the end, and every other character is copied. -/
def fmt.expand : List Char → List String → String
  | [], [] => ""
  | [], a :: args => "%!(EXTRA " ++ ", ".intercalate ((a :: args).map ("string=" ++ ·)) ++ ")"
  | ch :: rest, args =>
    if ch = '%' then
      match rest, args with
      | 's' :: rest, a :: args => a ++ fmt.expand rest args
      | 's' :: rest, [] => "%!s(MISSING)" ++ fmt.expand rest []
      | rest, args => String.singleton ch ++ fmt.expand rest args
    else String.singleton ch ++ fmt.expand rest args

/-- The call `fmt.Sprintf(format, args...)` on string operands. -/
def fmt.Sprintf (format : String) (args : List String) : String :=
  fmt.expand format.toList args

/-- The call `log.Printf(format, args...)`: the formatted line is handed to the log
sink.  The sink keeps the lines it is handed; the header and the line end that the
standard logger puts around a line are the sink's own rendering. -/
def log.Printf (w : World) (format : String) (args : List String) : World :=
  { w with sink := w.sink ++ [fmt.Sprintf format args] }

/-! ## The middleware -/

/-- The colour chosen by the `switch` of `Logger`, starting from `color.Green`. -/
def Logger.col (s : Int) : color :=
  if s ≥ 500 then color.Red
  else if s ≥ 400 then color.Yellow
  else if s ≥ 300 then color.Cyan
  else color.Green

/-- The decorator `Logger`: read the clock, call `h` on the same context, read the
clock again, read method, path and status through `c`, choose the colour and print
the line.  A panic of `h` unwinds through `Logger`, which has no deferred call.
The reads `c.Request.Method`, `c.Request.URL.Path` and `c.Response.Status()` go
through the pointers `c`, `c.Request`, `c.Request.URL` and `c.Response`; on a nil
one `Logger` panics itself, after the second reading and before any printing. -/
def Logger (H : Host) (h : HandlerFunc) : HandlerFunc := fun c w =>
  let (start, w) := time.Now H w
  match h c w with
  | .diverged => .diverged
  | .panicked e w => .panicked e w
  | .returned w =>
    let (end_, w) := time.Now H w
    match c with
    | none => .panicked runtime.nilDereference w
    | some a =>
      match (w.ctx a).Request with
      | none => .panicked runtime.nilDereference w
      | some req =>
        let m := req.Method
        match req.URL with
        | none => .panicked runtime.nilDereference w
        | some url =>
          let p := url.Path
          match (w.ctx a).Response with
          | none => .panicked runtime.nilDereference w
          | some resp =>
            let s := resp.Status
            let col := Logger.col s
            .returned (log.Printf w "%s %s %s %s"
              [m, p, H.paint col s, H.DurationString (Time.Sub end_ start)])

/-! ## Test doubles

A clock, a colour rendering, a duration rendering, a world and a few handlers on
which the statements below are evaluated. -/

/-- Rendering of a status between the escape codes of a terminal colour. -/
def demo.ansi : color → Int → String
  | .Green, s => "\x1b[32m" ++ toString s ++ "\x1b[0m"
  | .Red, s => "\x1b[31m" ++ toString s ++ "\x1b[0m"
  | .Yellow, s => "\x1b[33m" ++ toString s ++ "\x1b[0m"
  | .Cyan, s => "\x1b[36m" ++ toString s ++ "\x1b[0m"

/-- A clock that is five milliseconds further at every reading, colours as escape
codes, and durations shown in whole milliseconds. -/
def demo.host : Host where
  clock := fun k => 5000000 * (k : Int)
  paint := demo.ansi
  DurationString := fun d => toString (d / 1000000) ++ "ms"

/-- A clock whose readings alternate between 0 and five milliseconds. -/
def demo.sawtooth : Host where
  clock := fun k => 5000000 * ((k % 2 : Nat) : Int)
  paint := demo.ansi
  DurationString := fun d => toString (d / 1000000) ++ "ms"


/-- The context of a request with the given method, path and status, nothing
written yet, every pointer set. -/
def demo.request (m p : String) (s : Int) : Context where
  Request := some { Method := m, URL := some { Path := p } }
  Response := some { status := s, header := [], body := "" }

/-- A context whose request pointer is nil. -/
def demo.noRequest : Context where
  Request := none
  Response := some { status := 200, header := [], body := "" }

/-- A context whose request has a nil URL. -/
def demo.noURL : Context where
  Request := some { Method := "GET", URL := none }
  Response := some { status := 200, header := [], body := "" }

/-- A context whose response pointer is nil. -/
def demo.noResponse : Context where
  Request := some { Method := "GET", URL := some { Path := "/users/42" } }
  Response := none

/-- A world with the request `GET /users/42` at every address, status 0, an empty
log sink and a clock not read yet. -/
def demo.world : World where
  ctx := fun _ => demo.request "GET" "/users/42" 0
  sink := []
  ticks := 0

/-- The context `x` with a response of status `s` and body `b`. -/
def demo.respond (x : Context) (s : Int) (b : String) : Context :=
  { x with Response := some { status := s, header := [], body := b } }

/-- A handler that answers with status `s` and body `b`. -/
def demo.serve (s : Int) (b : String) : HandlerFunc := fun c w =>
  match c with
  | none => .panicked runtime.nilDereference w
  | some a => .returned { w with ctx := Function.update w.ctx a (demo.respond (w.ctx a) s b) }

/-- A handler that writes a line of its own to the log sink and then answers. -/
def demo.chatty (s : Int) (b : String) : HandlerFunc := fun c w =>
  match c with
  | none => .panicked runtime.nilDereference w
  | some a =>
    .returned { w with
      ctx := Function.update w.ctx a (demo.respond (w.ctx a) s b)
      sink := w.sink ++ ["handler was here"] }

/-- A handler that overwrites the context it is given with `x` and returns. -/
def demo.leave (x : Context) : HandlerFunc := fun c w =>
  match c with
  | none => .returned w
  | some a => .returned { w with ctx := Function.update w.ctx a x }

/-- A handler that panics before it touches the response. -/
def demo.crash : HandlerFunc := fun _ w =>
  .panicked { value := "boom" } w

/-- The world `demo.serve s b` leaves when `Logger` calls it on address 0 of
`demo.world`. -/
def demo.served (s : Int) (b : String) : World where
  ctx := Function.update demo.world.ctx 0 (demo.respond (demo.world.ctx 0) s b)
  sink := []
  ticks := 1

/-- The world `demo.leave x` leaves when `Logger` calls it on address 0 of
`demo.world`. -/
def demo.left (x : Context) : World where
  ctx := Function.update demo.world.ctx 0 x
  sink := []
  ticks := 1

/-- A world that has handled a request before: a line in the log sink, two clock
readings taken, and the request `GET /users/42` with status 503 at every address. -/
def demo.busy : World where
  ctx := fun _ => demo.request "GET" "/users/42" 503
  sink := ["GET /crash \x1b[31m503\x1b[0m 5ms"]
  ticks := 2

/-- The world `demo.serve s b` leaves when `Logger` calls it on address 7 of
`demo.busy`. -/
def demo.busyServed (s : Int) (b : String) : World where
  ctx := Function.update demo.busy.ctx 7 (demo.respond (demo.busy.ctx 7) s b)
  sink := ["GET /crash \x1b[31m503\x1b[0m 5ms"]
  ticks := 3

/-- The world `demo.chatty s b` leaves when two nested `Logger`s call it on address
0 of `demo.world`. -/
def demo.chatted (s : Int) (b : String) : World where
  ctx := Function.update demo.world.ctx 0 (demo.respond (demo.world.ctx 0) s b)
  sink := ["handler was here"]
  ticks := 2

/-! ## Lemmas on the embedding -/

theorem fmt.Sprintf_four (m p x d : String) :
    fmt.Sprintf "%s %s %s %s" [m, p, x, d] = m ++ " " ++ p ++ " " ++ x ++ " " ++ d := by
  have hsp : String.singleton ' ' = " " := rfl
  simp [fmt.Sprintf, fmt.expand, hsp, String.append_assoc]

theorem Logger_of_returned (H : Host) (h : HandlerFunc) (c : Ptr) (w w' : World)
    (a : Nat) (req : Request) (url : URL) (resp : Response)
    (hret : h c (time.Now H w).2 = .returned w')
    (hc : c = some a) (hreq : (w'.ctx a).Request = some req) (hurl : req.URL = some url)
    (hresp : (w'.ctx a).Response = some resp) :
    Logger H h c w = .returned
      { ctx := w'.ctx
        sink := w'.sink ++
          [req.Method ++ " " ++ url.Path ++ " " ++
            H.paint (Logger.col resp.Status) resp.Status ++ " " ++
            H.DurationString (H.clock w'.ticks - H.clock w.ticks)]
        ticks := w'.ticks + 1 } := by
  simp only [time.Now] at hret
  subst hc
  simp [Logger, time.Now, hret, hreq, hurl, hresp, log.Printf, fmt.Sprintf_four, Time.Sub]

theorem Logger_of_nil (H : Host) (h : HandlerFunc) (c : Ptr) (w w' : World)
    (hret : h c (time.Now H w).2 = .returned w')
    (hnil : ¬ ∃ (a : Nat) (req : Request) (url : URL) (resp : Response),
      c = some a ∧ (w'.ctx a).Request = some req ∧ req.URL = some url ∧
      (w'.ctx a).Response = some resp) :
    Logger H h c w = .panicked runtime.nilDereference (time.Now H w').2 := by
  simp only [time.Now] at hret
  cases c with
  | none => simp [Logger, time.Now, hret]
  | some a =>
    cases h1 : (w'.ctx a).Request with
    | none => simp [Logger, time.Now, hret, h1]
    | some req =>
      cases h2 : req.URL with
      | none => simp [Logger, time.Now, hret, h1, h2]
      | some url =>
        cases h3 : (w'.ctx a).Response with
        | none => simp [Logger, time.Now, hret, h1, h2, h3]
        | some resp => exact absurd ⟨a, req, url, resp, rfl, h1, h2, h3⟩ hnil

theorem Logger_of_panicked (H : Host) (h : HandlerFunc) (c : Ptr) (w w' : World) (e : Failure)
    (hp : h c (time.Now H w).2 = .panicked e w') :
    Logger H h c w = .panicked e w' := by
  simp only [time.Now] at hp
  simp [Logger, time.Now, hp]

theorem Logger_of_diverged (H : Host) (h : HandlerFunc) (c : Ptr) (w : World)
    (hd : h c (time.Now H w).2 = .diverged) :
    Logger H h c w = .diverged := by
  simp only [time.Now] at hd
  simp [Logger, time.Now, hd]

/-! ## The claims -/

/-- C1: the colour `Logger` picks for a status `s` is Red exactly when `s ≥ 500`,
Yellow exactly when `400 ≤ s < 500`, Cyan exactly when `300 ≤ s < 400` and Green
exactly when `s < 300`, zero and negative statuses included; at the boundaries 299
is Green, 300 and 399 are Cyan, 400, 401 and 499 are Yellow, 500 and 503 are Red. -/
theorem Logger_col_tiers :
    (∀ s : Int,
      (Logger.col s = color.Red ↔ 500 ≤ s) ∧
      (Logger.col s = color.Yellow ↔ 400 ≤ s ∧ s < 500) ∧
      (Logger.col s = color.Cyan ↔ 300 ≤ s ∧ s < 400) ∧
      (Logger.col s = color.Green ↔ s < 300)) ∧
    Logger.col 299 = color.Green ∧ Logger.col 300 = color.Cyan ∧
    Logger.col 399 = color.Cyan ∧ Logger.col 400 = color.Yellow ∧
    Logger.col 401 = color.Yellow ∧ Logger.col 499 = color.Yellow ∧
    Logger.col 500 = color.Red ∧ Logger.col 503 = color.Red ∧
    Logger.col 0 = color.Green ∧ Logger.col (-1) = color.Green := by
  refine ⟨fun s => ?_, by decide, by decide, by decide, by decide, by decide, by decide,
    by decide, by decide, by decide, by decide⟩
  unfold Logger.col
  split_ifs <;> simp <;> omega

/-- C2 as stated fails, twice.  A handler that returns leaving the request pointer
nil makes `Logger` panic on its own read of the method, and nothing is added to the
log sink.  A handler that rewrites the request of `GET /users/42` into
`POST /login` makes `Logger` log the rewritten method and path: the line does not
contain the method of the incoming request. -/
theorem Logger_one_line_fails :
    (demo.leave demo.noRequest (some 0) (time.Now demo.host demo.world).2 =
        .returned (demo.left demo.noRequest) ∧
      Logger demo.host (demo.leave demo.noRequest) (some 0) demo.world =
        .panicked runtime.nilDereference (time.Now demo.host (demo.left demo.noRequest)).2 ∧
      (Logger demo.host (demo.leave demo.noRequest) (some 0) demo.world).sink = some []) ∧
    ((demo.world.ctx 0).Request =
        some { Method := "GET", URL := some { Path := "/users/42" } } ∧
      (Logger demo.host (demo.leave (demo.request "POST" "/login" 200)) (some 0)
        demo.world).sink = some ["POST /login \x1b[32m200\x1b[0m 5ms"] ∧
      ¬ "GET".toList <:+: "POST /login \x1b[32m200\x1b[0m 5ms".toList) :=
  ⟨⟨rfl, rfl, rfl⟩, rfl, rfl, by decide⟩

/-- C2, amended: when the wrapped handler returns and leaves the context pointer,
the request, its URL and the response set, `Logger` returns and the log sink holds
what the handler left in it followed by exactly one more line; that line contains
the method and the path the request holds after the handler ran and the colour
rendering of the status the response holds after the handler ran; when the handler
left the request as it came in, these are the incoming method and path.  When the
handler returns and leaves one of the pointers nil, `Logger` adds no line. -/
theorem Logger_one_line (H : Host) (h : HandlerFunc) (c : Ptr) (w w' : World)
    (hret : h c (time.Now H w).2 = .returned w') :
    (∀ (a : Nat) (req : Request) (url : URL) (resp : Response),
      c = some a → (w'.ctx a).Request = some req → req.URL = some url →
      (w'.ctx a).Response = some resp →
      ∃ (line : String) (w'' : World),
        Logger H h c w = .returned w'' ∧
        w''.sink = w'.sink ++ [line] ∧
        w''.sink.length = w'.sink.length + 1 ∧
        req.Method.toList <:+: line.toList ∧
        url.Path.toList <:+: line.toList ∧
        (H.paint (Logger.col resp.Status) resp.Status).toList <:+: line.toList ∧
        ((w.ctx a).Request = (w'.ctx a).Request →
          ∃ req₀ url₀, (w.ctx a).Request = some req₀ ∧ req₀.URL = some url₀ ∧
            req₀.Method.toList <:+: line.toList ∧ url₀.Path.toList <:+: line.toList)) ∧
    ((¬ ∃ (a : Nat) (req : Request) (url : URL) (resp : Response),
        c = some a ∧ (w'.ctx a).Request = some req ∧ req.URL = some url ∧
        (w'.ctx a).Response = some resp) →
      (Logger H h c w).sink = some w'.sink) := by
  have hm : ∀ m p x d : String, m.toList <:+: (m ++ " " ++ p ++ " " ++ x ++ " " ++ d).toList :=
    fun m p x d => ⟨[], (" " ++ p ++ " " ++ x ++ " " ++ d).toList, by simp [String.append_assoc]⟩
  have hp : ∀ m p x d : String, p.toList <:+: (m ++ " " ++ p ++ " " ++ x ++ " " ++ d).toList :=
    fun m p x d => ⟨(m ++ " ").toList, (" " ++ x ++ " " ++ d).toList, by simp [String.append_assoc]⟩
  have hx : ∀ m p x d : String, x.toList <:+: (m ++ " " ++ p ++ " " ++ x ++ " " ++ d).toList :=
    fun m p x d => ⟨(m ++ " " ++ p ++ " ").toList, (" " ++ d).toList, by simp [String.append_assoc]⟩
  refine ⟨fun a req url resp hc hreq hurl hresp => ?_, fun hnil => ?_⟩
  · exact ⟨_, _, Logger_of_returned H h c w w' a req url resp hret hc hreq hurl hresp, rfl,
      by simp, hm _ _ _ _, hp _ _ _ _, hx _ _ _ _,
      fun hsame => ⟨req, url, hsame.trans hreq, hurl, hm _ _ _ _, hp _ _ _ _⟩⟩
  · rw [Logger_of_nil H h c w w' hret hnil]; rfl

/-- Witness of the amended C2: the request `GET /users/42` answered with status
200. -/
theorem Logger_one_line_witness :
    ∃ (line : String) (w'' : World),
      Logger demo.host (demo.serve 200 "ok") (some 0) demo.world = .returned w'' ∧
      w''.sink = [] ++ [line] ∧
      w''.sink.length = 0 + 1 ∧
      "GET".toList <:+: line.toList ∧
      "/users/42".toList <:+: line.toList ∧
      "\x1b[32m200\x1b[0m".toList <:+: line.toList :=
  let ⟨line, w'', h1, h2, h3, h4, h5, h6, _⟩ :=
    (Logger_one_line demo.host (demo.serve 200 "ok") (some 0) demo.world
      (demo.served 200 "ok") rfl).1 0 { Method := "GET", URL := some { Path := "/users/42" } }
      { Path := "/users/42" } { status := 200, header := [], body := "ok" } rfl rfl rfl rfl
  ⟨line, w'', h1, h2, h3, h4, h5, h6⟩

/-- C3 as stated fails: the handler that leaves the response pointer nil returns
when it runs alone, while `Logger` around it panics; the two runs differ by a
failure, not by a line in the log sink. -/
theorem Logger_not_transparent :
    demo.leave demo.noResponse (some 0) (time.Now demo.host demo.world).2 =
      .returned (demo.left demo.noResponse) ∧
    Logger demo.host (demo.leave demo.noResponse) (some 0) demo.world =
      .panicked runtime.nilDereference (time.Now demo.host (demo.left demo.noResponse)).2 ∧
    (Logger demo.host (demo.leave demo.noResponse) (some 0) demo.world).sink = some [] :=
  ⟨rfl, rfl, rfl⟩

/-- C3, amended: for every handler, context pointer and world, `Logger(h)` leaves the
contexts exactly as `h` alone leaves them when called on the same pointer at the
moment `Logger` calls it.  If `h` returns and leaves the pointer, the request, its
URL and the response set, `Logger(h)` returns the world `h` left with one line
added to the log sink and the clock read once more; if `h` returns and leaves one
of them nil, `Logger(h)` panics with the nil-pointer error in the world `h` left,
the clock read once more and no line added; if `h` panics, `Logger(h)` panics with
the same failure and world; if `h` never returns, neither does `Logger(h)`. -/
theorem Logger_transparent (H : Host) (h : HandlerFunc) (c : Ptr) (w : World) :
    (Logger H h c w).ctx = (h c (time.Now H w).2).ctx ∧
    (∀ w' (a : Nat) (req : Request) (url : URL) (resp : Response),
      h c (time.Now H w).2 = .returned w' →
      c = some a → (w'.ctx a).Request = some req → req.URL = some url →
      (w'.ctx a).Response = some resp →
      ∃ line, Logger H h c w =
        .returned { w' with sink := w'.sink ++ [line], ticks := w'.ticks + 1 }) ∧
    (∀ w', h c (time.Now H w).2 = .returned w' →
      (¬ ∃ (a : Nat) (req : Request) (url : URL) (resp : Response),
        c = some a ∧ (w'.ctx a).Request = some req ∧ req.URL = some url ∧
        (w'.ctx a).Response = some resp) →
      Logger H h c w = .panicked runtime.nilDereference { w' with ticks := w'.ticks + 1 }) ∧
    (∀ e w', h c (time.Now H w).2 = .panicked e w' → Logger H h c w = .panicked e w') ∧
    (h c (time.Now H w).2 = .diverged → Logger H h c w = .diverged) := by
  refine ⟨?_, fun w' a req url resp hret hc hreq hurl hresp =>
      ⟨_, Logger_of_returned H h c w w' a req url resp hret hc hreq hurl hresp⟩,
    fun w' hret hnil => Logger_of_nil H h c w w' hret hnil,
    fun e w' hp => Logger_of_panicked H h c w w' e hp,
    fun hd => Logger_of_diverged H h c w hd⟩
  cases hout : h c (time.Now H w).2 with
  | returned w' =>
    by_cases hset : ∃ (a : Nat) (req : Request) (url : URL) (resp : Response),
        c = some a ∧ (w'.ctx a).Request = some req ∧ req.URL = some url ∧
        (w'.ctx a).Response = some resp
    · obtain ⟨a, req, url, resp, hc, hreq, hurl, hresp⟩ := hset
      rw [Logger_of_returned H h c w w' a req url resp hout hc hreq hurl hresp]; rfl
    · rw [Logger_of_nil H h c w w' hout hset]; rfl
  | panicked e w' => rw [Logger_of_panicked H h c w w' e hout]
  | diverged => rw [Logger_of_diverged H h c w hout]

/-- Witness of the amended C3: a handler that sets status 404 and a body, wrapped and
alone. -/
theorem Logger_transparent_witness :
    (Logger demo.host (demo.serve 404 "not found") (some 0) demo.world).ctx =
      (demo.serve 404 "not found" (some 0) (time.Now demo.host demo.world).2).ctx ∧
    (Logger demo.host (demo.serve 404 "not found") (some 0) demo.world).ctx =
      some (demo.served 404 "not found").ctx :=
  ⟨(Logger_transparent demo.host (demo.serve 404 "not found") (some 0) demo.world).1, rfl⟩

/-- C4 as stated fails in its last part: the handler that leaves the request with a
nil URL returns normally, and `Logger` around it raises a failure of its own, the
nil-pointer error. -/
theorem Logger_own_failure :
    demo.leave demo.noURL (some 0) (time.Now demo.host demo.world).2 =
      .returned (demo.left demo.noURL) ∧
    Logger demo.host (demo.leave demo.noURL) (some 0) demo.world =
      .panicked runtime.nilDereference (time.Now demo.host (demo.left demo.noURL)).2 :=
  ⟨rfl, rfl⟩

/-- C4, amended: a panic of the wrapped handler is the panic of `Logger(h)`, with the
same failure and the same world; when the handler returns and leaves the context
pointer, the request, its URL and the response set, `Logger(h)` returns; and a
panic of `Logger(h)` is either the handler's panic, unchanged, or the nil-pointer
error raised after the handler returned and left one of those pointers nil. -/
theorem Logger_failure_unchanged (H : Host) (h : HandlerFunc) (c : Ptr) (w : World) :
    (∀ e w', h c (time.Now H w).2 = .panicked e w' → Logger H h c w = .panicked e w') ∧
    (∀ w' (a : Nat) (req : Request) (url : URL) (resp : Response),
      h c (time.Now H w).2 = .returned w' →
      c = some a → (w'.ctx a).Request = some req → req.URL = some url →
      (w'.ctx a).Response = some resp →
      ∃ w'', Logger H h c w = .returned w'') ∧
    (∀ e v, Logger H h c w = .panicked e v →
      h c (time.Now H w).2 = .panicked e v ∨
      ∃ w', h c (time.Now H w).2 = .returned w' ∧
        e = runtime.nilDereference ∧ v = (time.Now H w').2 ∧
        ¬ ∃ (a : Nat) (req : Request) (url : URL) (resp : Response),
          c = some a ∧ (w'.ctx a).Request = some req ∧ req.URL = some url ∧
          (w'.ctx a).Response = some resp) := by
  refine ⟨fun e w' hp => Logger_of_panicked H h c w w' e hp,
    fun w' a req url resp hret hc hreq hurl hresp =>
      ⟨_, Logger_of_returned H h c w w' a req url resp hret hc hreq hurl hresp⟩,
    fun e v hL => ?_⟩
  cases hout : h c (time.Now H w).2 with
  | returned w' =>
    by_cases hset : ∃ (a : Nat) (req : Request) (url : URL) (resp : Response),
        c = some a ∧ (w'.ctx a).Request = some req ∧ req.URL = some url ∧
        (w'.ctx a).Response = some resp
    · obtain ⟨a, req, url, resp, hc, hreq, hurl, hresp⟩ := hset
      rw [Logger_of_returned H h c w w' a req url resp hout hc hreq hurl hresp] at hL
      cases hL
    · rw [Logger_of_nil H h c w w' hout hset] at hL
      cases hL
      exact Or.inr ⟨w', rfl, rfl, rfl, hset⟩
  | panicked e' v' =>
    rw [Logger_of_panicked H h c w v' e' hout] at hL
    exact Or.inl hL
  | diverged => rw [Logger_of_diverged H h c w hout] at hL; cases hL

/-- Witness of the amended C4: the handler that panics with "boom". -/
theorem Logger_failure_unchanged_witness :
    Logger demo.host demo.crash (some 0) demo.world =
      .panicked { value := "boom" } (time.Now demo.host demo.world).2 :=
  (Logger_failure_unchanged demo.host demo.crash (some 0) demo.world).1 _ _ rfl

/-- C5 as stated fails: the handler that panics before it touches the response makes
`Logger` panic with the log sink still empty, so no line is emitted for the
request. -/
theorem Logger_crash_logs_nothing :
    demo.crash (some 0) (time.Now demo.host demo.world).2 =
      .panicked { value := "boom" } (time.Now demo.host demo.world).2 ∧
    (Logger demo.host demo.crash (some 0) demo.world).sink = some [] ∧
    ¬ ∃ line, (Logger demo.host demo.crash (some 0) demo.world).sink =
      some (demo.world.sink ++ [line]) :=
  ⟨rfl, rfl, fun ⟨_, hl⟩ => by cases hl⟩

/-- C5, amended: when the wrapped handler panics, `Logger` emits no line: it panics
with the handler's failure and the log sink holds exactly what it held when the
handler panicked. -/
theorem Logger_panic_emits_no_line (H : Host) (h : HandlerFunc) (c : Ptr) (w w' : World)
    (e : Failure) (hp : h c (time.Now H w).2 = .panicked e w') :
    Logger H h c w = .panicked e w' ∧
    (Logger H h c w).sink = some w'.sink ∧
    ¬ ∃ line, (Logger H h c w).sink = some (w'.sink ++ [line]) := by
  rw [Logger_of_panicked H h c w w' e hp]
  refine ⟨rfl, rfl, fun ⟨line, hl⟩ => ?_⟩
  have := congrArg (Option.map List.length) hl
  simp [Outcome.sink] at this

/-- Witness of the amended C5: the handler that panics with "boom". -/
theorem Logger_panic_emits_no_line_witness :
    (Logger demo.host demo.crash (some 0) demo.world).sink = some [] :=
  (Logger_panic_emits_no_line demo.host demo.crash (some 0) demo.world
    (time.Now demo.host demo.world).2 { value := "boom" } rfl).2.1

/-- C6: when the wrapped handler returns (and leaves the pointers `Logger` reads
through set), the line `Logger` hands to the log sink is the method, a space, the
path, a space, the status rendered by the colour of its tier, a space, and the
rendering of the elapsed duration, and nothing else; the colour is Red exactly for
a status of 500 or more, Yellow exactly from 400 to 499, Cyan exactly from 300 to
399 and Green exactly below 300; the rest of the world is as the handler left it,
the clock read once more. -/
theorem Logger_line_format (H : Host) (h : HandlerFunc) (c : Ptr) (w w' : World)
    (a : Nat) (req : Request) (url : URL) (resp : Response)
    (hret : h c (time.Now H w).2 = .returned w')
    (hc : c = some a) (hreq : (w'.ctx a).Request = some req) (hurl : req.URL = some url)
    (hresp : (w'.ctx a).Response = some resp) :
    ∃ col : color,
      Logger H h c w = .returned
        { w' with
          sink := w'.sink ++
            [req.Method ++ " " ++ url.Path ++ " " ++ H.paint col resp.Status ++ " " ++
              H.DurationString (Time.Sub (time.Now H w').1 (time.Now H w).1)]
          ticks := w'.ticks + 1 } ∧
      (col = color.Red ↔ 500 ≤ resp.Status) ∧
      (col = color.Yellow ↔ 400 ≤ resp.Status ∧ resp.Status < 500) ∧
      (col = color.Cyan ↔ 300 ≤ resp.Status ∧ resp.Status < 400) ∧
      (col = color.Green ↔ resp.Status < 300) := by
  refine ⟨Logger.col resp.Status,
    Logger_of_returned H h c w w' a req url resp hret hc hreq hurl hresp, ?_⟩
  unfold Logger.col
  split_ifs <;> simp <;> omega

/-- Witness of C6: `GET /users/42` answered with status 200 on a clock that advances
five milliseconds between the two readings gives `GET /users/42 200 5ms`, the 200
in green; answered with status 503 it gives the 503 in red. -/
theorem Logger_line_format_witness :
    Logger demo.host (demo.serve 200 "ok") (some 0) demo.world = .returned
      { demo.served 200 "ok" with
        sink := ["GET /users/42 \x1b[32m200\x1b[0m 5ms"]
        ticks := 2 } ∧
    Logger demo.host (demo.serve 503 "down") (some 0) demo.world = .returned
      { demo.served 503 "down" with
        sink := ["GET /users/42 \x1b[31m503\x1b[0m 5ms"]
        ticks := 2 } := by
  obtain ⟨col, hrun, _, _, _, hgreen⟩ :=
    Logger_line_format demo.host (demo.serve 200 "ok") (some 0) demo.world
      (demo.served 200 "ok") 0 { Method := "GET", URL := some { Path := "/users/42" } }
      { Path := "/users/42" } { status := 200, header := [], body := "ok" } rfl rfl rfl rfl rfl
  obtain ⟨col', hrun', hred, _, _, _⟩ :=
    Logger_line_format demo.host (demo.serve 503 "down") (some 0) demo.world
      (demo.served 503 "down") 0 { Method := "GET", URL := some { Path := "/users/42" } }
      { Path := "/users/42" } { status := 503, header := [], body := "down" } rfl rfl rfl rfl rfl
  have hcol : col = color.Green := hgreen.mpr (by decide)
  have hcol' : col' = color.Red := hred.mpr (by decide)
  subst hcol hcol'
  exact ⟨hrun, hrun'⟩

/-- C7: the duration in the line is the reading `Logger` takes after the handler
returned minus the reading it took before calling the handler; when the readings of
the clock never decrease and the handler has not turned the count of readings
back, that duration is not negative. -/
theorem Logger_duration (H : Host) (h : HandlerFunc) (c : Ptr) (w w' : World)
    (a : Nat) (req : Request) (url : URL) (resp : Response)
    (hret : h c (time.Now H w).2 = .returned w')
    (hc : c = some a) (hreq : (w'.ctx a).Request = some req) (hurl : req.URL = some url)
    (hresp : (w'.ctx a).Response = some resp) :
    ∃ d : Duration,
      d = Time.Sub (time.Now H w').1 (time.Now H w).1 ∧
      d = (time.Now H w').1 - (time.Now H w).1 ∧
      (Logger H h c w).sink = some (w'.sink ++
        [req.Method ++ " " ++ url.Path ++ " " ++
          H.paint (Logger.col resp.Status) resp.Status ++ " " ++ H.DurationString d]) ∧
      (Monotone H.clock → w.ticks ≤ w'.ticks → 0 ≤ d) := by
  refine ⟨_, rfl, rfl, ?_, fun hmono hfw => ?_⟩
  · rw [Logger_of_returned H h c w w' a req url resp hret hc hreq hurl hresp]; rfl
  · have hle : H.clock w.ticks ≤ H.clock w'.ticks := hmono hfw
    exact Int.sub_nonneg_of_le hle

/-- Witness of C7: five milliseconds between the two readings of a clock that only
advances. -/
theorem Logger_duration_witness :
    ∃ d : Duration,
      d = 5000000 ∧
      (Logger demo.host (demo.serve 200 "ok") (some 0) demo.world).sink =
        some ["GET /users/42 \x1b[32m200\x1b[0m " ++ demo.host.DurationString d] ∧
      0 ≤ d :=
  let ⟨d, hd, _, hline, hpos⟩ :=
    Logger_duration demo.host (demo.serve 200 "ok") (some 0) demo.world (demo.served 200 "ok")
      0 { Method := "GET", URL := some { Path := "/users/42" } }
      { Path := "/users/42" } { status := 200, header := [], body := "ok" } rfl rfl rfl rfl rfl
  ⟨d, hd.trans (by decide), hd ▸ hline,
    hpos (fun a b hab => Int.mul_le_mul_of_nonneg_left (Int.ofNat_le.mpr hab) (by decide))
      (by decide)⟩

/-- C8: the status in the line is the status the response holds after the handler
returned: a handler that changes the status from `s0` to `s1` makes `Logger` emit
`s1`, rendered in the colour of the tier of `s1`: Red exactly for `s1 ≥ 500`,
Yellow exactly for `400 ≤ s1 < 500`, Cyan exactly for `300 ≤ s1 < 400`, Green
exactly for `s1 < 300`. -/
theorem Logger_logs_final_status (H : Host) (h : HandlerFunc) (c : Ptr) (w w' : World)
    (a : Nat) (req : Request) (url : URL) (resp₀ resp : Response) (s0 s1 : Int)
    (hc : c = some a)
    (_hs0 : (w.ctx a).Response = some resp₀ ∧ resp₀.Status = s0)
    (hret : h c (time.Now H w).2 = .returned w')
    (hreq : (w'.ctx a).Request = some req) (hurl : req.URL = some url)
    (hs1 : (w'.ctx a).Response = some resp ∧ resp.Status = s1) :
    ∃ col : color,
      (Logger H h c w).sink = some (w'.sink ++
        [req.Method ++ " " ++ url.Path ++ " " ++ H.paint col s1 ++ " " ++
          H.DurationString (Time.Sub (time.Now H w').1 (time.Now H w).1)]) ∧
      (col = color.Red ↔ 500 ≤ s1) ∧
      (col = color.Yellow ↔ 400 ≤ s1 ∧ s1 < 500) ∧
      (col = color.Cyan ↔ 300 ≤ s1 ∧ s1 < 400) ∧
      (col = color.Green ↔ s1 < 300) := by
  obtain ⟨hresp, hs⟩ := hs1
  refine ⟨Logger.col s1, ?_, ?_⟩
  · rw [Logger_of_returned H h c w w' a req url resp hret hc hreq hurl hresp, hs]; rfl
  · unfold Logger.col
    split_ifs <;> simp <;> omega

/-- Witness of C8: the status is 0 at entry, in the green tier, and the handler sets
404; the line carries 404 in yellow. -/
theorem Logger_logs_final_status_witness :
    (Logger demo.host (demo.serve 404 "not found") (some 0) demo.world).sink =
      some ["GET /users/42 \x1b[33m404\x1b[0m 5ms"] := by
  obtain ⟨col, hline, _, hyellow, _, _⟩ :=
    Logger_logs_final_status demo.host (demo.serve 404 "not found") (some 0) demo.world
      (demo.served 404 "not found") 0
      { Method := "GET", URL := some { Path := "/users/42" } } { Path := "/users/42" }
      { status := 0, header := [], body := "" }
      { status := 404, header := [], body := "not found" } 0 404
      rfl ⟨rfl, rfl⟩ rfl rfl rfl ⟨rfl, rfl⟩
  have hcol : col = color.Yellow := hyellow.mpr (by decide)
  subst hcol
  exact hline

/-- C9: `Logger` keeps nothing between invocations.  The line it emits is one fixed
function of the method, the path, the final status and the two clock readings of
the request; so two runs that agree on these five emit the same line, whatever the
handlers, the addresses and the worlds (log sink, other contexts, readings taken so
far) they start from, and each run adds nothing to the world but its line and its
reading of the clock. -/
theorem Logger_stateless (H : Host) :
    (∃ f : String → String → Int → Time → Time → String,
      ∀ (h : HandlerFunc) (c : Ptr) (w w' : World)
        (a : Nat) (req : Request) (url : URL) (resp : Response),
        h c (time.Now H w).2 = .returned w' →
        c = some a → (w'.ctx a).Request = some req → req.URL = some url →
        (w'.ctx a).Response = some resp →
        Logger H h c w = .returned
          { w' with
            sink := w'.sink ++ [f req.Method url.Path resp.Status
              (time.Now H w).1 (time.Now H w').1]
            ticks := w'.ticks + 1 }) ∧
    (∀ (h₁ h₂ : HandlerFunc) (c₁ c₂ : Ptr) (w₁ w₂ w₁' w₂' : World)
      (a₁ a₂ : Nat) (req₁ req₂ : Request) (url₁ url₂ : URL) (resp₁ resp₂ : Response),
      h₁ c₁ (time.Now H w₁).2 = .returned w₁' →
      h₂ c₂ (time.Now H w₂).2 = .returned w₂' →
      c₁ = some a₁ → (w₁'.ctx a₁).Request = some req₁ → req₁.URL = some url₁ →
      (w₁'.ctx a₁).Response = some resp₁ →
      c₂ = some a₂ → (w₂'.ctx a₂).Request = some req₂ → req₂.URL = some url₂ →
      (w₂'.ctx a₂).Response = some resp₂ →
      req₁.Method = req₂.Method →
      url₁.Path = url₂.Path →
      resp₁.Status = resp₂.Status →
      (time.Now H w₁).1 = (time.Now H w₂).1 →
      (time.Now H w₁').1 = (time.Now H w₂').1 →
      ∃ line : String,
        Logger H h₁ c₁ w₁ = .returned
          { w₁' with sink := w₁'.sink ++ [line], ticks := w₁'.ticks + 1 } ∧
        Logger H h₂ c₂ w₂ = .returned
          { w₂' with sink := w₂'.sink ++ [line], ticks := w₂'.ticks + 1 }) := by
  refine ⟨⟨fun m p s t₀ t₁ => m ++ " " ++ p ++ " " ++ H.paint (Logger.col s) s ++ " " ++
      H.DurationString (Time.Sub t₁ t₀), fun h c w w' a req url resp hret hc hreq hurl hresp =>
      Logger_of_returned H h c w w' a req url resp hret hc hreq hurl hresp⟩, ?_⟩
  intro h₁ h₂ c₁ c₂ w₁ w₂ w₁' w₂' a₁ a₂ req₁ req₂ url₁ url₂ resp₁ resp₂
    hret₁ hret₂ hc₁ hreq₁ hurl₁ hresp₁ hc₂ hreq₂ hurl₂ hresp₂ hm hp hs hstart hend
  refine ⟨_, Logger_of_returned H h₁ c₁ w₁ w₁' a₁ req₁ url₁ resp₁ hret₁ hc₁ hreq₁ hurl₁ hresp₁,
    ?_⟩
  rw [Logger_of_returned H h₂ c₂ w₂ w₂' a₂ req₂ url₂ resp₂ hret₂ hc₂ hreq₂ hurl₂ hresp₂,
    hm, hp, hs]
  simp only [time.Now] at hstart hend
  rw [hstart, hend]

/-- Witness of C9: a first request on a fresh world and a request with the same
method, path, status and readings on a world that has logged a line before, at
another address and with another body: the same line is added in both. -/
theorem Logger_stateless_witness :
    ∃ line : String,
      Logger demo.sawtooth (demo.serve 200 "ok") (some 0) demo.world = .returned
        { demo.served 200 "ok" with sink := [] ++ [line], ticks := 1 + 1 } ∧
      Logger demo.sawtooth (demo.serve 200 "other") (some 7) demo.busy = .returned
        { demo.busyServed 200 "other" with
          sink := ["GET /crash \x1b[31m503\x1b[0m 5ms"] ++ [line], ticks := 3 + 1 } :=
  (Logger_stateless demo.sawtooth).2 (demo.serve 200 "ok") (demo.serve 200 "other")
    (some 0) (some 7) demo.world demo.busy (demo.served 200 "ok") (demo.busyServed 200 "other")
    0 7 { Method := "GET", URL := some { Path := "/users/42" } }
    { Method := "GET", URL := some { Path := "/users/42" } }
    { Path := "/users/42" } { Path := "/users/42" }
    { status := 200, header := [], body := "ok" }
    { status := 200, header := [], body := "other" }
    rfl rfl rfl rfl rfl rfl rfl rfl rfl rfl rfl rfl rfl rfl rfl

/-- C10: `Logger(h)` is one call of `h` on the context it was given, made after the
first reading of the clock, and its line is added after that call has returned, behind
every line the handler wrote.  For `Logger(Logger(h))` the sink ends with two
lines, the inner wrapper's first; the inner duration runs from the second reading
to the reading after the handler, the outer one from the first reading to the
last; and when the readings of the clock never decrease the outer duration is at
least the inner one. -/
theorem Logger_nested (H : Host) (h : HandlerFunc) (c : Ptr) (w : World)
    (a : Nat) (req : Request) (url : URL) (resp : Response) (hc : c = some a) :
    (∀ w', h c (time.Now H w).2 = .returned w' →
      (w'.ctx a).Request = some req → req.URL = some url →
      (w'.ctx a).Response = some resp →
      ∃ line, Logger H h c w =
        .returned { w' with sink := w'.sink ++ [line], ticks := w'.ticks + 1 }) ∧
    (∀ w', h c (time.Now H (time.Now H w).2).2 = .returned w' →
      (w'.ctx a).Request = some req → req.URL = some url →
      (w'.ctx a).Response = some resp →
      ∃ dIn dOut : Duration,
        dIn = Time.Sub (time.Now H w').1 (time.Now H (time.Now H w).2).1 ∧
        dOut = Time.Sub (time.Now H (time.Now H w').2).1 (time.Now H w).1 ∧
        Logger H (Logger H h) c w = .returned
          { w' with
            sink := w'.sink ++
              [req.Method ++ " " ++ url.Path ++ " " ++
                H.paint (Logger.col resp.Status) resp.Status ++ " " ++ H.DurationString dIn,
               req.Method ++ " " ++ url.Path ++ " " ++
                H.paint (Logger.col resp.Status) resp.Status ++ " " ++ H.DurationString dOut]
            ticks := w'.ticks + 2 } ∧
        (Monotone H.clock → dIn ≤ dOut)) := by
  refine ⟨fun w' hret hreq hurl hresp =>
    ⟨_, Logger_of_returned H h c w w' a req url resp hret hc hreq hurl hresp⟩,
    fun w' hret hreq hurl hresp => ?_⟩
  refine ⟨_, _, rfl, rfl, ?_, fun hmono => ?_⟩
  · have hin := Logger_of_returned H h c (time.Now H w).2 w' a req url resp hret hc hreq hurl
      hresp
    rw [Logger_of_returned H (Logger H h) c w _ a req url resp hin hc hreq hurl hresp]
    simp [time.Now, Time.Sub]
  · have h₀ : H.clock w.ticks ≤ H.clock (w.ticks + 1) := hmono (Nat.le_succ _)
    have h₁ : H.clock w'.ticks ≤ H.clock (w'.ticks + 1) := hmono (Nat.le_succ _)
    exact Int.sub_le_sub h₁ h₀

/-- Witness of C10: two nested wrappers around a handler that writes a line of its
own; the handler's line comes first, then the inner wrapper's with 5ms, then the
outer wrapper's with 15ms. -/
theorem Logger_nested_witness :
    Logger demo.host (Logger demo.host (demo.chatty 200 "ok")) (some 0) demo.world = .returned
      { demo.chatted 200 "ok" with
        sink := ["handler was here", "GET /users/42 \x1b[32m200\x1b[0m 5ms",
          "GET /users/42 \x1b[32m200\x1b[0m 15ms"]
        ticks := 4 } ∧
    (5000000 : Int) ≤ 15000000 := by
  obtain ⟨dIn, dOut, hIn, hOut, hrun, hle⟩ :=
    (Logger_nested demo.host (demo.chatty 200 "ok") (some 0) demo.world 0
      { Method := "GET", URL := some { Path := "/users/42" } } { Path := "/users/42" }
      { status := 200, header := [], body := "ok" } rfl).2 (demo.chatted 200 "ok")
      rfl rfl rfl rfl
  subst hIn hOut
  exact ⟨hrun, hle (fun a b hab =>
    Int.mul_le_mul_of_nonneg_left (Int.ofNat_le.mpr hab) (by decide))⟩

end middleware
